import Mathlib

/-!
Shallow embedding of `src/langchain_examples/langchain_langgraph_starter.py`:
a three-stage LangGraph pipeline (classifier → keyword_agent → summarizer)
sharing a mutable `TeamState` record, each stage making exactly one call to a
language-model client, parsing the textual reply into one field of the record.

The LangGraph runtime is modelled operationally: a state is a record of
optional fields (a key absent from the TypedDict-backed dict is `none`);
each node returns a partial update (a record of optional fields) that is
merged over the current state; the compiled graph is executed by following
the unconditional edges added in `create_agents_team`, with a fuel bound
standing for LangGraph's recursion limit.  The model client is a state
machine `σ → String → Except ε (String × σ)` so that both a pure client and
a scripted stub (canned replies consumed in call order) are instances.
-/

namespace AgentsWorkflow

/-- Structure `TeamState` from the source: the shared memory between agents.  Each
field is optional because a LangGraph state key that no node has written yet
is simply absent from the underlying dict. -/
structure TeamState where
  original_text : Option String := none
  category : Option String := none
  important_terms : Option (List String) := none
  summary : Option String := none
  current_agent : Option String := none
deriving DecidableEq, Repr

/-- A partial state update, as returned by each agent node (a Python dict
holding only the keys that node writes). -/
structure StateUpdate where
  original_text : Option String := none
  category : Option String := none
  important_terms : Option (List String) := none
  summary : Option String := none
  current_agent : Option String := none
deriving DecidableEq, Repr

/-- LangGraph merge of one returned update over the current state: a key
present in the update overwrites, an absent key leaves the state alone. -/
def mergeField {α : Type} (new old : Option α) : Option α :=
  match new with
  | some v => some v
  | none => old

/-- Apply a node's returned partial update to the shared state. -/
def applyUpdate (s : TeamState) (u : StateUpdate) : TeamState where
  original_text := mergeField u.original_text s.original_text
  category := mergeField u.category s.category
  important_terms := mergeField u.important_terms s.important_terms
  summary := mergeField u.summary s.summary
  current_agent := mergeField u.current_agent s.current_agent

/-- Errors a pipeline run can surface: a failed model-client call
(`llm.invoke` raising), a read of a state key no stage has populated
(Python `KeyError` on `state[...]`), LangGraph's recursion limit, or a
node with no outgoing edge. -/
inductive RunError (ε : Type) where
  | llmError : ε → RunError ε
  | missingField : String → RunError ε
  | recursionLimit : RunError ε
  | deadEnd : RunError ε
deriving DecidableEq, Repr

/-- The Model Invocation Client: one "send prompt, receive text" call.
`σ` is the client's internal state so a stub can consume canned replies in
call order; `ε` is its error type. -/
structure ModelClient (σ ε : Type) where
  invoke : σ → String → Except ε (String × σ)

/-- A stateless client given by a pure reply function. -/
def pureClient {ε : Type} (f : String → Except ε String) : ModelClient Unit ε :=
  ⟨fun _ prompt => (f prompt).map (fun r => (r, ()))⟩

/-- A scripted stub: reply `i` of the script answers the `i`-th call made,
whatever its prompt; the counter records how many calls have been made. -/
def scriptedClient {ε : Type} : ModelClient (Nat × (Nat → Except ε String)) ε :=
  ⟨fun s _prompt => (s.2 s.1).map (fun r => (r, (s.1 + 1, s.2)))⟩

/-- Reading `state["k"]`: a `KeyError` on an absent key becomes a
`missingField` error. -/
def getField {α ε : Type} (x : Option α) (key : String) : Except (RunError ε) α :=
  match x with
  | some v => .ok v
  | none => .error (.missingField key)

/-- Characters removed by Python `str.strip()` (whitespace). -/
def stripChars (l : List Char) : List Char :=
  ((l.dropWhile Char.isWhitespace).reverse.dropWhile Char.isWhitespace).reverse

/-- Python `s.strip()`: remove leading and trailing whitespace. -/
def pyStrip (s : String) : String := ⟨stripChars s.data⟩

/-- Helper for `pySplitComma`, structurally recursive on the character
list, accumulating the current piece in reverse. -/
def splitCommaAux : List Char → List Char → List (List Char)
  | [], acc => [acc.reverse]
  | c :: rest, acc =>
    if c = ',' then acc.reverse :: splitCommaAux rest []
    else splitCommaAux rest (c :: acc)

/-- Python `s.split(",")`: split on every comma, keeping empty pieces
(so the empty string yields `[""]`). -/
def pySplitComma (s : String) : List String :=
  (splitCommaAux s.data []).map (fun l => ⟨l⟩)

/-- The fixed closed set of six category labels listed in the classifier
prompt. -/
def canonical_labels : List String :=
  ["News", "Personal Blog", "Technical Article", "Marketing", "Educational", "Other"]

/-- The classifier prompt (the f-string of `agent_classifier`). -/
def classifierPrompt (text : String) : String :=
  "\n    You are a text classification expert.\n"
  ++ "    Your only task is to identify the category of the text.\n\n"
  ++ "    Classify this text into ONE of these categories:\n"
  ++ "    - News\n    - Personal Blog\n    - Technical Article\n"
  ++ "    - Marketing\n    - Educational\n    - Other\n\n"
  ++ "    Text to analyze:\n    " ++ text ++ "\n\n"
  ++ "    Reply only with the category:\n    "

/-- The keyword prompt (the f-string of `agent_keywords`); it interpolates
the already-set category and the original text. -/
def keywordsPrompt (category text : String) : String :=
  "\n    You are a keyword analysis expert.\n"
  ++ "    Your task is to find the 5 most important keywords from the text.\n\n"
  ++ "    Category already identified: " ++ category ++ "\n\n"
  ++ "    Text to analyze:\n    " ++ text ++ "\n\n"
  ++ "    Extract exactly 5 important keywords, separated by commas.\n"
  ++ "    Focus on: main concepts, important names, technologies, places.\n\n"
  ++ "    Keywords:\n    "

/-- The summarizer prompt (the f-string of `agent_summarizer`); it
interpolates category, the comma-joined keyword list, and the text. -/
def summarizerPrompt (category : String) (terms : List String) (text : String) : String :=
  "\n    You are an expert in creating concise summaries.\n"
  ++ "    Your task is to summarize the text in maximum 15 words.\n\n"
  ++ "    Information from other agents:\n"
  ++ "    - Category: " ++ category ++ "\n"
  ++ "    - Keywords: " ++ String.intercalate ", " terms ++ "\n\n"
  ++ "    Text to summarize:\n    " ++ text ++ "\n\n"
  ++ "    Create a summary of maximum 15 words that captures the essence:\n    "

/-- Function `agent_classifier`: reads `state["original_text"]`, invokes the model
client once, and returns `\x7b"category": reply.strip(),
"current_agent": "Classifier"\x7d`. -/
def agent_classifier {σ ε : Type} (c : ModelClient σ ε) (cs : σ) (state : TeamState) :
    Except (RunError ε) (StateUpdate × σ) := do
  let text ← getField state.original_text "original_text"
  let prompt := classifierPrompt text
  match c.invoke cs prompt with
  | .error e => .error (.llmError e)
  | .ok (reply, cs2) =>
    let category := pyStrip reply
    .ok ({ category := some category, current_agent := some "Classifier" }, cs2)

/-- Function `agent_keywords`: reads `state["category"]` and `state["original_text"]`,
invokes the model client once, splits the stripped reply on commas, strips
each piece, and returns `\x7b"important_terms": keywords,
"current_agent": "Keywords"\x7d`. -/
def agent_keywords {σ ε : Type} (c : ModelClient σ ε) (cs : σ) (state : TeamState) :
    Except (RunError ε) (StateUpdate × σ) := do
  let category ← getField state.category "category"
  let text ← getField state.original_text "original_text"
  let prompt := keywordsPrompt category text
  match c.invoke cs prompt with
  | .error e => .error (.llmError e)
  | .ok (reply, cs2) =>
    let keywords_text := pyStrip reply
    let keywords := (pySplitComma keywords_text).map pyStrip
    .ok ({ important_terms := some keywords, current_agent := some "Keywords" }, cs2)

/-- Function `agent_summarizer`: reads `state["category"]`, `state["important_terms"]`
and `state["original_text"]`, invokes the model client once, and returns
`\x7b"summary": reply.strip(), "current_agent": "Summarizer"\x7d`. -/
def agent_summarizer {σ ε : Type} (c : ModelClient σ ε) (cs : σ) (state : TeamState) :
    Except (RunError ε) (StateUpdate × σ) := do
  let category ← getField state.category "category"
  let terms ← getField state.important_terms "important_terms"
  let text ← getField state.original_text "original_text"
  let prompt := summarizerPrompt category terms text
  match c.invoke cs prompt with
  | .error e => .error (.llmError e)
  | .ok (reply, cs2) =>
    let summary := pyStrip reply
    .ok ({ summary := some summary, current_agent := some "Summarizer" }, cs2)

/-- The nodes of the workflow graph built in `create_agents_team`, plus the
`END` sentinel. -/
inductive Node where
  | classifier
  | keyword_agent
  | summarizer
  | END
deriving DecidableEq, Repr

/-- Entry point: `workflow.set_entry_point("classifier")`. -/
def entry_point : Node := .classifier

/-- The unconditional edges added by the three `workflow.add_edge` calls in
`create_agents_team`; no conditional edge is added anywhere. -/
def edges : List (Node × Node) :=
  [(.classifier, .keyword_agent), (.keyword_agent, .summarizer), (.summarizer, .END)]

/-- Successor of a node along the unconditional edges (a function of the
node only: LangGraph routing never consults the state here). -/
def nextNode (n : Node) : Option Node :=
  (edges.find? (fun e => e.1 == n)).map (fun e => e.2)

/-- Dispatch from a graph node to the agent function registered for it by
`workflow.add_node`; `END` executes nothing. -/
def nodeFn {σ ε : Type} (c : ModelClient σ ε) (n : Node) (cs : σ) (s : TeamState) :
    Except (RunError ε) (StateUpdate × σ) :=
  match n with
  | .classifier => agent_classifier c cs s
  | .keyword_agent => agent_keywords c cs s
  | .summarizer => agent_summarizer c cs s
  | .END => .ok ({}, cs)

/-- Execution of the compiled graph from a node, instrumented: the result
carries (1) the final state and client state, or the propagated error,
(2) the list of nodes whose agent function was invoked (in order), and
(3) for each node that completed, its returned update and the merged state
after it.  The fuel stands for LangGraph's recursion limit; an error from a
node aborts the remaining pipeline at once. -/
def teamInvokeAux {σ ε : Type} (c : ModelClient σ ε) :
    Nat → Node → σ → TeamState →
    (Except (RunError ε) (TeamState × σ)) × List Node × List (Node × StateUpdate × TeamState)
  | 0, _, _, _ => (.error .recursionLimit, [], [])
  | fuel + 1, n, cs, s =>
    if n = Node.END then (.ok (s, cs), [], [])
    else
      match nodeFn c n cs s with
      | .error e => (.error e, [n], [])
      | .ok (u, cs2) =>
        let s2 := applyUpdate s u
        match nextNode n with
        | none => (.error .deadEnd, [n], [(n, u, s2)])
        | some n2 =>
          let r := teamInvokeAux c fuel n2 cs2 s2
          (r.1, n :: r.2.1, (n, u, s2) :: r.2.2)

/-- Invocation `team.invoke(initial_state)`: run the compiled graph from the entry
point; 25 is LangGraph's default recursion limit. -/
def teamInvoke {σ ε : Type} (c : ModelClient σ ε) (cs : σ) (init : TeamState) :
    (Except (RunError ε) (TeamState × σ)) × List Node × List (Node × StateUpdate × TeamState) :=
  teamInvokeAux c 25 entry_point cs init

/-- Runner `run`: `team.invoke` on the initial dict
`\x7b"original_text": input_text, "current_agent": "Starting"\x7d` built by
`test_agents_team`. -/
def run {σ ε : Type} (c : ModelClient σ ε) (cs : σ) (input_text : String) :
    (Except (RunError ε) (TeamState × σ)) × List Node × List (Node × StateUpdate × TeamState) :=
  teamInvoke c cs
    { original_text := some input_text, current_agent := some "Starting" }

/-- The update dict returned by `agent_classifier` on a reply `r`. -/
def classifierUpdate (r : String) : StateUpdate :=
  { category := some (pyStrip r), current_agent := some "Classifier" }

/-- The update dict returned by `agent_keywords` on a reply `r`. -/
def keywordsUpdate (r : String) : StateUpdate :=
  { important_terms := some ((pySplitComma (pyStrip r)).map pyStrip),
    current_agent := some "Keywords" }

/-- The update dict returned by `agent_summarizer` on a reply `r`. -/
def summarizerUpdate (r : String) : StateUpdate :=
  { summary := some (pyStrip r), current_agent := some "Summarizer" }

/-- The initial dict passed to `team.invoke` by `test_agents_team`. -/
def initialState (input : String) : TeamState :=
  { original_text := some input, current_agent := some "Starting" }

/-- The shared state after the classifier stage, for replies `r0`. -/
def stateAfter1 (input r0 : String) : TeamState :=
  { original_text := some input, category := some (pyStrip r0),
    current_agent := some "Classifier" }

/-- The shared state after the keyword stage, for replies `r0, r1`. -/
def stateAfter2 (input r0 r1 : String) : TeamState :=
  { original_text := some input, category := some (pyStrip r0),
    important_terms := some ((pySplitComma (pyStrip r1)).map pyStrip),
    current_agent := some "Keywords" }

/-- The final record of a run whose three model replies were `r0, r1, r2`. -/
def finalState (input r0 r1 r2 : String) : TeamState :=
  { original_text := some input, category := some (pyStrip r0),
    important_terms := some ((pySplitComma (pyStrip r1)).map pyStrip),
    summary := some (pyStrip r2), current_agent := some "Summarizer" }

/-- Master lemma: a run against the scripted stub whose first three replies
succeed executes exactly classifier, keyword_agent, summarizer (in that
order), makes exactly three client calls, and produces the expected record
and per-stage trace. -/
theorem run_scripted_ok {ε : Type} (f : Nat → Except ε String)
    (input r0 r1 r2 : String)
    (h0 : f 0 = .ok r0) (h1 : f 1 = .ok r1) (h2 : f 2 = .ok r2) :
    run scriptedClient (0, f) input =
      (.ok (finalState input r0 r1 r2, (3, f)),
       [.classifier, .keyword_agent, .summarizer],
       [(.classifier, classifierUpdate r0, stateAfter1 input r0),
        (.keyword_agent, keywordsUpdate r1, stateAfter2 input r0 r1),
        (.summarizer, summarizerUpdate r2, finalState input r0 r1 r2)]) := by
  simp [run, teamInvoke, teamInvokeAux, nodeFn, agent_classifier, agent_keywords,
    agent_summarizer, getField, scriptedClient, applyUpdate, mergeField, nextNode,
    edges, entry_point, h0, h1, h2, classifierUpdate, keywordsUpdate,
    summarizerUpdate, stateAfter1, stateAfter2, finalState,
    Bind.bind, Except.bind, Except.map]

/-- Error lemma, stage 1: if the first client call fails, the run
propagates the failure, only the classifier was invoked, and no stage
completed. -/
theorem run_scripted_err1 {ε : Type} (f : Nat → Except ε String)
    (input : String) (e : ε) (h0 : f 0 = .error e) :
    run scriptedClient (0, f) input =
      (.error (.llmError e), [.classifier], []) := by
  simp [run, teamInvoke, teamInvokeAux, nodeFn, agent_classifier, getField,
    scriptedClient, nextNode, edges, entry_point, h0, Bind.bind, Except.bind,
    Except.map]

/-- Error lemma, stage 2: if the second client call fails, the run
propagates the failure, only classifier and keyword_agent were invoked, and
only the classifier completed. -/
theorem run_scripted_err2 {ε : Type} (f : Nat → Except ε String)
    (input r0 : String) (e : ε) (h0 : f 0 = .ok r0) (h1 : f 1 = .error e) :
    run scriptedClient (0, f) input =
      (.error (.llmError e), [.classifier, .keyword_agent],
       [(.classifier, classifierUpdate r0, stateAfter1 input r0)]) := by
  simp [run, teamInvoke, teamInvokeAux, nodeFn, agent_classifier, agent_keywords,
    getField, scriptedClient, applyUpdate, mergeField, nextNode, edges,
    entry_point, h0, h1, classifierUpdate, stateAfter1, Bind.bind, Except.bind,
    Except.map]

/-- Error lemma, stage 3: if the third client call fails, the run propagates
the failure, all three agents were invoked, and only the first two
completed. -/
theorem run_scripted_err3 {ε : Type} (f : Nat → Except ε String)
    (input r0 r1 : String) (e : ε)
    (h0 : f 0 = .ok r0) (h1 : f 1 = .ok r1) (h2 : f 2 = .error e) :
    run scriptedClient (0, f) input =
      (.error (.llmError e), [.classifier, .keyword_agent, .summarizer],
       [(.classifier, classifierUpdate r0, stateAfter1 input r0),
        (.keyword_agent, keywordsUpdate r1, stateAfter2 input r0 r1)]) := by
  simp [run, teamInvoke, teamInvokeAux, nodeFn, agent_classifier, agent_keywords,
    agent_summarizer, getField, scriptedClient, applyUpdate, mergeField, nextNode,
    edges, entry_point, h0, h1, h2, classifierUpdate, keywordsUpdate,
    stateAfter1, stateAfter2, Bind.bind, Except.bind, Except.map]

/-- The three canned stub replies used by the spec's end-to-end test case,
in call order; any further call errors. -/
def cannedReplies : Nat → Except String String
  | 0 => .ok "Technical Article"
  | 1 => .ok "AI, GPT-4, reasoning, images, education"
  | 2 => .ok "OpenAI\x27s new model improves reasoning and multimodal AI capabilities."
  | _ => .error "script exhausted"

/-- A stub script whose second call fails (stage 2 failure scenario). -/
def failingAtSecond : Nat → Except String String
  | 0 => .ok "Technical Article"
  | _ => .error "backend unreachable"

/-- C1: the pipeline runner is a fixed linear chain — the graph's edge list
is exactly classifier → keyword_agent → summarizer → END, the successor
function is unconditional (a function of the node alone) and total on the
three agent nodes with END terminal, and every run whose client calls all
succeed visits exactly the three agent nodes in that order and terminates,
regardless of the input text and of the model replies. -/
theorem c1_fixed_linear_chain :
    edges = [(Node.classifier, Node.keyword_agent),
             (Node.keyword_agent, Node.summarizer),
             (Node.summarizer, Node.END)]
    ∧ nextNode Node.classifier = some Node.keyword_agent
    ∧ nextNode Node.keyword_agent = some Node.summarizer
    ∧ nextNode Node.summarizer = some Node.END
    ∧ nextNode Node.END = none
    ∧ ∀ (ε : Type) (f : Nat → Except ε String) (input r0 r1 r2 : String),
        f 0 = Except.ok r0 → f 1 = Except.ok r1 → f 2 = Except.ok r2 →
        (run scriptedClient (0, f) input).2.1 =
            [Node.classifier, Node.keyword_agent, Node.summarizer]
          ∧ (run scriptedClient (0, f) input).1 =
              Except.ok (finalState input r0 r1 r2, (3, f)) := by
  refine ⟨by decide, by decide, by decide, by decide, by decide, ?_⟩
  intro ε f input r0 r1 r2 h0 h1 h2
  rw [run_scripted_ok f input r0 r1 r2 h0 h1 h2]
  exact ⟨rfl, rfl⟩

/-- Witness for C1 at the canned script and a concrete input. -/
theorem c1_fixed_linear_chain_witness :
    (run scriptedClient (0, cannedReplies) "input").2.1 =
      [Node.classifier, Node.keyword_agent, Node.summarizer] :=
  (c1_fixed_linear_chain.2.2.2.2.2 String cannedReplies "input"
    "Technical Article" "AI, GPT-4, reasoning, images, education"
    "OpenAI\x27s new model improves reasoning and multimodal AI capabilities."
    rfl rfl rfl).1

/-- C2 counterexample: on a concrete run the `current_agent` labels are
Classifier, Keywords, Summarizer — the label "Keyword-Extractor" claimed by
the spec never occurs (the source sets `"current_agent": "Keywords"`). -/
theorem c2_label_counterexample :
    ((run scriptedClient (0, cannedReplies) "some text").2.2.map
        (fun entry => entry.2.2.current_agent)) =
      [some "Classifier", some "Keywords", some "Summarizer"]
    ∧ ((run scriptedClient (0, cannedReplies) "some text").2.2.map
        (fun entry => entry.2.2.current_agent)) ≠
      [some "Classifier", some "Keyword-Extractor", some "Summarizer"] := by
  rw [run_scripted_ok cannedReplies "some text"
    "Technical Article" "AI, GPT-4, reasoning, images, education"
    "OpenAI\x27s new model improves reasoning and multimodal AI capabilities."
    rfl rfl rfl]
  exact ⟨rfl, by decide⟩

/-- C2 (amended): for every input, when every model-client call succeeds,
the run returns a record with all five fields populated, and `current_agent`
transitions through exactly the three labels Classifier, Keywords, and
Summarizer in that order. -/
theorem c2_all_fields_populated (ε : Type) (f : Nat → Except ε String)
    (input r0 r1 r2 : String)
    (h0 : f 0 = Except.ok r0) (h1 : f 1 = Except.ok r1)
    (h2 : f 2 = Except.ok r2) :
    ((run scriptedClient (0, f) input).1.map (fun p => p.1)) =
        Except.ok (finalState input r0 r1 r2)
    ∧ (finalState input r0 r1 r2).original_text.isSome = true
    ∧ (finalState input r0 r1 r2).category.isSome = true
    ∧ (finalState input r0 r1 r2).important_terms.isSome = true
    ∧ (finalState input r0 r1 r2).summary.isSome = true
    ∧ (finalState input r0 r1 r2).current_agent.isSome = true
    ∧ ((run scriptedClient (0, f) input).2.2.map
          (fun entry => entry.2.2.current_agent)) =
        [some "Classifier", some "Keywords", some "Summarizer"] := by
  rw [run_scripted_ok f input r0 r1 r2 h0 h1 h2]
  exact ⟨rfl, rfl, rfl, rfl, rfl, rfl, rfl⟩

/-- Witness for the amended C2 at the canned script. -/
theorem c2_all_fields_populated_witness :
    ((run scriptedClient (0, cannedReplies) "text").2.2.map
        (fun entry => entry.2.2.current_agent)) =
      [some "Classifier", some "Keywords", some "Summarizer"] :=
  (c2_all_fields_populated String cannedReplies "text"
    "Technical Article" "AI, GPT-4, reasoning, images, education"
    "OpenAI\x27s new model improves reasoning and multimodal AI capabilities."
    rfl rfl rfl).2.2.2.2.2.2

/-- C3: if the model call of the stage with 0-based index N (N+1-th stage)
fails, the run propagates exactly that error, the stages after it are never
invoked and none is retried or skipped (the invoked nodes are precisely the
first N+1 of the chain, each once), and no record is produced — the result
is the error, and only N stages completed. -/
theorem c3_stage_failure_aborts (ε : Type) (f : Nat → Except ε String)
    (input : String) (e : ε) (N : Nat) (hN : N < 3)
    (hok : ∀ i, i < N → ∃ r, f i = Except.ok r)
    (herr : f N = Except.error e) :
    (run scriptedClient (0, f) input).1 = Except.error (.llmError e)
    ∧ (run scriptedClient (0, f) input).2.1 =
        [Node.classifier, Node.keyword_agent, Node.summarizer].take (N + 1)
    ∧ (run scriptedClient (0, f) input).2.2.length = N := by
  interval_cases N
  · rw [run_scripted_err1 f input e herr]
    exact ⟨rfl, rfl, rfl⟩
  · obtain ⟨r0, h0⟩ := hok 0 (by norm_num)
    rw [run_scripted_err2 f input r0 e h0 herr]
    exact ⟨rfl, rfl, rfl⟩
  · obtain ⟨r0, h0⟩ := hok 0 (by norm_num)
    obtain ⟨r1, h1⟩ := hok 1 (by norm_num)
    rw [run_scripted_err3 f input r0 r1 e h0 h1 herr]
    exact ⟨rfl, rfl, rfl⟩

/-- Witness for C3: a stub failing at the second call aborts after the
keyword agent with the propagated error. -/
theorem c3_stage_failure_aborts_witness :
    (1 : Nat) < 3
    ∧ (run scriptedClient (0, failingAtSecond) "text").1 =
        Except.error (RunError.llmError "backend unreachable")
    ∧ (run scriptedClient (0, failingAtSecond) "text").2.1 =
        [Node.classifier, Node.keyword_agent] := by
  have h := c3_stage_failure_aborts String failingAtSecond "text"
    "backend unreachable" 1 (by norm_num)
    (by
      intro i hi
      interval_cases i
      exact ⟨"Technical Article", rfl⟩) rfl
  exact ⟨by norm_num, h.1, h.2.1⟩

/-- C7: end-to-end with the stubbed client returning the three canned
replies in stage order, the run returns the record whose category, comma
split and trimmed important_terms, and summary exactly match the three
replies, with current_agent equal to Summarizer. -/
theorem c7_end_to_end_canned :
    ((run scriptedClient (0, cannedReplies) "some text").1.map (fun p => p.1)) =
      Except.ok
        { original_text := some "some text",
          category := some "Technical Article",
          important_terms := some ["AI", "GPT-4", "reasoning", "images", "education"],
          summary := some "OpenAI\x27s new model improves reasoning and multimodal AI capabilities.",
          current_agent := some "Summarizer" } := by
  rw [run_scripted_ok cannedReplies "some text"
    "Technical Article" "AI, GPT-4, reasoning, images, education"
    "OpenAI\x27s new model improves reasoning and multimodal AI capabilities."
    rfl rfl rfl]
  rfl

/-- C4: the keyword extractor parses the model reply by splitting on commas
and stripping whitespace from each piece, preserving order, with no
five-count check: for every reply r the update is the split-and-strip of r,
the five-term reply yields those five terms in order, and a three-term
reply yields exactly three terms, neither padded nor rejected. -/
theorem c4_keyword_parsing (ε : Type) (f : String → Except ε String)
    (state : TeamState) (cat txt r : String)
    (hc : state.category = some cat) (ht : state.original_text = some txt)
    (hr : f (keywordsPrompt cat txt) = Except.ok r) :
    agent_keywords (pureClient f) () state =
      Except.ok ({ important_terms := some ((pySplitComma (pyStrip r)).map pyStrip),
                   current_agent := some "Keywords" }, ())
    ∧ agent_keywords
        (pureClient (fun _ =>
          (Except.ok "AI, models, GPT-4, reasoning, images" : Except ε String))) ()
        { original_text := some txt, category := some cat } =
      Except.ok ({ important_terms := some ["AI", "models", "GPT-4", "reasoning", "images"],
                   current_agent := some "Keywords" }, ())
    ∧ agent_keywords
        (pureClient (fun _ => (Except.ok "alpha, beta, gamma" : Except ε String))) ()
        { original_text := some txt, category := some cat } =
      Except.ok ({ important_terms := some ["alpha", "beta", "gamma"],
                   current_agent := some "Keywords" }, ())
    ∧ (["alpha", "beta", "gamma"] : List String).length = 3 := by
  refine ⟨?_, rfl, rfl, rfl⟩
  simp [agent_keywords, getField, pureClient, hc, ht, hr, Bind.bind, Except.bind,
    Except.map]

/-- Witness for C4 at a concrete state and the five-term canned reply. -/
theorem c4_keyword_parsing_witness :
    agent_keywords
      (pureClient (fun _ =>
        (Except.ok "AI, models, GPT-4, reasoning, images" : Except String String))) ()
      { original_text := some "t", category := some "News" } =
    Except.ok ({ important_terms := some ["AI", "models", "GPT-4", "reasoning", "images"],
                 current_agent := some "Keywords" }, ()) :=
  (c4_keyword_parsing String
    (fun _ => (Except.ok "AI, models, GPT-4, reasoning, images" : Except String String))
    { original_text := some "t", category := some "News" } "News" "t"
    "AI, models, GPT-4, reasoning, images" rfl rfl rfl).2.1

/-- C5: the classifier parses the model reply by stripping whitespace only
and accepts any resulting string as the category — for every reply r the
category is set to the stripped r, with no membership check against the
six-label set. -/
theorem c5_classifier_accepts_any_reply (ε : Type) (f : String → Except ε String)
    (state : TeamState) (txt r : String)
    (ht : state.original_text = some txt)
    (hr : f (classifierPrompt txt) = Except.ok r) :
    agent_classifier (pureClient f) () state =
      Except.ok ({ category := some (pyStrip r),
                   current_agent := some "Classifier" }, ()) := by
  simp [agent_classifier, getField, pureClient, ht, hr, Bind.bind, Except.bind,
    Except.map]

/-- Witness for C5 with a reply far outside the six canonical labels: it is
still accepted, merely stripped. -/
theorem c5_classifier_accepts_any_reply_witness :
    ("Completely Unlisted Category" ∈ canonical_labels → False)
    ∧ agent_classifier
        (pureClient (fun _ =>
          (Except.ok " Completely Unlisted Category " : Except String String))) ()
        { original_text := some "t" } =
      Except.ok ({ category := some "Completely Unlisted Category",
                   current_agent := some "Classifier" }, ()) := by
  refine ⟨by decide, ?_⟩
  have h := c5_classifier_accepts_any_reply String
    (fun _ => (Except.ok " Completely Unlisted Category " : Except String String))
    { original_text := some "t" } "t" " Completely Unlisted Category " rfl rfl
  exact h

/-- A sixteen-word model reply, exceeding the requested 15-word bound. -/
def longReply : String :=
  "one two three four five six seven eight nine ten eleven twelve thirteen fourteen fifteen sixteen"

/-- C8: the summarizer parses the model reply by stripping whitespace only
and does not enforce the 15-word bound: for every reply string the summary
field is set to the stripped reply. -/
theorem c8_summarizer_no_word_bound (ε : Type) (f : String → Except ε String)
    (state : TeamState) (cat : String) (terms : List String) (txt r : String)
    (hc : state.category = some cat) (hk : state.important_terms = some terms)
    (ht : state.original_text = some txt)
    (hr : f (summarizerPrompt cat terms txt) = Except.ok r) :
    agent_summarizer (pureClient f) () state =
      Except.ok ({ summary := some (pyStrip r),
                   current_agent := some "Summarizer" }, ()) := by
  simp [agent_summarizer, getField, pureClient, hc, hk, ht, hr, Bind.bind,
    Except.bind, Except.map]

/-- Witness for C8 with a sixteen-word reply: it is accepted verbatim even
though it exceeds fifteen words. -/
theorem c8_summarizer_no_word_bound_witness :
    15 < ((pyStrip longReply).data.splitOn ' ').length
    ∧ agent_summarizer
        (pureClient (fun _ => (Except.ok longReply : Except String String))) ()
        { original_text := some "t", category := some "News",
          important_terms := some ["a"] } =
      Except.ok ({ summary := some longReply,
                   current_agent := some "Summarizer" }, ()) := by
  refine ⟨by decide, ?_⟩
  have h := c8_summarizer_no_word_bound String
    (fun _ => (Except.ok longReply : Except String String))
    { original_text := some "t", category := some "News",
      important_terms := some ["a"] } "News" ["a"] "t" longReply rfl rfl rfl rfl
  exact h

/-- The list of state keys present in an update dict, in field order:
these are the keys the returning stage writes into the shared state. -/
def writesOf (u : StateUpdate) : List String :=
  (if u.original_text.isSome then ["original_text"] else [])
  ++ (if u.category.isSome then ["category"] else [])
  ++ (if u.important_terms.isSome then ["important_terms"] else [])
  ++ (if u.summary.isSome then ["summary"] else [])
  ++ (if u.current_agent.isSome then ["current_agent"] else [])

/-- All keys written across a run's completed stages, one occurrence per
stage write, in execution order. -/
def runWrites (trace : List (Node × StateUpdate × TeamState)) : List String :=
  (trace.map (fun entry => writesOf entry.2.1)).flatten

/-- C6 counterexample: on a concrete successful run the key current_agent
is written three times (once per stage), so it is not true that within one
pipeline run every field is written at most once. -/
theorem c6_write_once_counterexample :
    runWrites (run scriptedClient (0, cannedReplies) "some text").2.2 =
      ["category", "current_agent", "important_terms", "current_agent",
       "summary", "current_agent"]
    ∧ (runWrites (run scriptedClient (0, cannedReplies) "some text").2.2).count
        "current_agent" = 3
    ∧ ¬ (runWrites (run scriptedClient (0, cannedReplies) "some text").2.2).count
        "current_agent" ≤ 1 := by
  rw [run_scripted_ok cannedReplies "some text"
    "Technical Article" "AI, GPT-4, reasoning, images, education"
    "OpenAI\x27s new model improves reasoning and multimodal AI capabilities."
    rfl rfl rfl]
  exact ⟨rfl, by decide, by decide⟩

/-- C6 (amended): within one successful pipeline run each of the three data
fields category, important_terms and summary is written exactly once, by
stages 1, 2 and 3 respectively in stage order; original_text is written by
no stage; current_agent is written by every stage (three times); and no
stage reads a field not yet populated by an earlier stage (the run never
fails with a missing-field read). -/
theorem c6_stage_order_writes (ε : Type) (f : Nat → Except ε String)
    (input r0 r1 r2 : String)
    (h0 : f 0 = Except.ok r0) (h1 : f 1 = Except.ok r1)
    (h2 : f 2 = Except.ok r2) :
    writesOf (classifierUpdate r0) = ["category", "current_agent"]
    ∧ writesOf (keywordsUpdate r1) = ["important_terms", "current_agent"]
    ∧ writesOf (summarizerUpdate r2) = ["summary", "current_agent"]
    ∧ (run scriptedClient (0, f) input).2.2 =
        [(Node.classifier, classifierUpdate r0, stateAfter1 input r0),
         (Node.keyword_agent, keywordsUpdate r1, stateAfter2 input r0 r1),
         (Node.summarizer, summarizerUpdate r2, finalState input r0 r1 r2)]
    ∧ (runWrites (run scriptedClient (0, f) input).2.2).count "category" = 1
    ∧ (runWrites (run scriptedClient (0, f) input).2.2).count "important_terms" = 1
    ∧ (runWrites (run scriptedClient (0, f) input).2.2).count "summary" = 1
    ∧ (runWrites (run scriptedClient (0, f) input).2.2).count "original_text" = 0
    ∧ (runWrites (run scriptedClient (0, f) input).2.2).count "current_agent" = 3
    ∧ ∀ key, (run scriptedClient (0, f) input).1 ≠
        Except.error (RunError.missingField key) := by
  rw [run_scripted_ok f input r0 r1 r2 h0 h1 h2]
  refine ⟨rfl, rfl, rfl, rfl, rfl, rfl, rfl, rfl, rfl, ?_⟩
  intro key h
  cases h

/-- Witness for the amended C6 at the canned script. -/
theorem c6_stage_order_writes_witness :
    (runWrites (run scriptedClient (0, cannedReplies) "text").2.2).count
        "category" = 1
    ∧ (runWrites (run scriptedClient (0, cannedReplies) "text").2.2).count
        "current_agent" = 3 := by
  have h := c6_stage_order_writes String cannedReplies "text"
    "Technical Article" "AI, GPT-4, reasoning, images, education"
    "OpenAI\x27s new model improves reasoning and multimodal AI capabilities."
    rfl rfl rfl
  exact ⟨h.2.2.2.2.1, h.2.2.2.2.2.2.2.2.1⟩

/-- C10: frame property of each stage — the classifier's update carries
only category and current_agent, the keyword extractor's only
important_terms and current_agent, the summarizer's only summary and
current_agent; hence merging each update leaves original_text and every
field written by an earlier stage unchanged. -/
theorem c10_frame_property (σ ε : Type) (c : ModelClient σ ε) (cs : σ)
    (state : TeamState) :
    (∀ u cs2, agent_classifier c cs state = Except.ok (u, cs2) →
      u.original_text = none ∧ u.important_terms = none ∧ u.summary = none
      ∧ u.category.isSome = true ∧ u.current_agent = some "Classifier"
      ∧ ∀ s : TeamState, (applyUpdate s u).original_text = s.original_text
          ∧ (applyUpdate s u).important_terms = s.important_terms
          ∧ (applyUpdate s u).summary = s.summary)
    ∧ (∀ u cs2, agent_keywords c cs state = Except.ok (u, cs2) →
      u.original_text = none ∧ u.category = none ∧ u.summary = none
      ∧ u.important_terms.isSome = true ∧ u.current_agent = some "Keywords"
      ∧ ∀ s : TeamState, (applyUpdate s u).original_text = s.original_text
          ∧ (applyUpdate s u).category = s.category
          ∧ (applyUpdate s u).summary = s.summary)
    ∧ (∀ u cs2, agent_summarizer c cs state = Except.ok (u, cs2) →
      u.original_text = none ∧ u.category = none ∧ u.important_terms = none
      ∧ u.summary.isSome = true ∧ u.current_agent = some "Summarizer"
      ∧ ∀ s : TeamState, (applyUpdate s u).original_text = s.original_text
          ∧ (applyUpdate s u).category = s.category
          ∧ (applyUpdate s u).important_terms = s.important_terms) := by
  refine ⟨?_, ?_, ?_⟩
  · intro u cs2 h
    cases hx : state.original_text with
    | none => simp [agent_classifier, getField, hx, Bind.bind, Except.bind] at h
    | some txt =>
      cases hinv : c.invoke cs (classifierPrompt txt) with
      | error e =>
        simp [agent_classifier, getField, hx, hinv, Bind.bind, Except.bind] at h
      | ok pr =>
        simp [agent_classifier, getField, hx, hinv, Bind.bind, Except.bind] at h
        obtain ⟨hu, -⟩ := h
        subst hu
        exact ⟨rfl, rfl, rfl, rfl, rfl, fun s => ⟨rfl, rfl, rfl⟩⟩
  · intro u cs2 h
    cases hc : state.category with
    | none => simp [agent_keywords, getField, hc, Bind.bind, Except.bind] at h
    | some cat =>
      cases hx : state.original_text with
      | none => simp [agent_keywords, getField, hc, hx, Bind.bind, Except.bind] at h
      | some txt =>
        cases hinv : c.invoke cs (keywordsPrompt cat txt) with
        | error e =>
          simp [agent_keywords, getField, hc, hx, hinv, Bind.bind, Except.bind] at h
        | ok pr =>
          simp [agent_keywords, getField, hc, hx, hinv, Bind.bind, Except.bind] at h
          obtain ⟨hu, -⟩ := h
          subst hu
          exact ⟨rfl, rfl, rfl, rfl, rfl, fun s => ⟨rfl, rfl, rfl⟩⟩
  · intro u cs2 h
    cases hc : state.category with
    | none => simp [agent_summarizer, getField, hc, Bind.bind, Except.bind] at h
    | some cat =>
      cases hk : state.important_terms with
      | none =>
        simp [agent_summarizer, getField, hc, hk, Bind.bind, Except.bind] at h
      | some terms =>
        cases hx : state.original_text with
        | none =>
          simp [agent_summarizer, getField, hc, hk, hx, Bind.bind, Except.bind] at h
        | some txt =>
          cases hinv : c.invoke cs (summarizerPrompt cat terms txt) with
          | error e =>
            simp [agent_summarizer, getField, hc, hk, hx, hinv, Bind.bind,
              Except.bind] at h
          | ok pr =>
            simp [agent_summarizer, getField, hc, hk, hx, hinv, Bind.bind,
              Except.bind] at h
            obtain ⟨hu, -⟩ := h
            subst hu
            exact ⟨rfl, rfl, rfl, rfl, rfl, fun s => ⟨rfl, rfl, rfl⟩⟩

/-- Witness for C10: at a concrete client and state the classifier's update
leaves the other fields untouched when merged. -/
theorem c10_frame_property_witness :
    ({ category := some "X", current_agent := some "Classifier" } :
        StateUpdate).original_text = none
    ∧ (applyUpdate { original_text := some "t", current_agent := some "Starting" }
        { category := some "X", current_agent := some "Classifier" }).original_text =
      some "t" := by
  have h := (c10_frame_property Unit String
      (pureClient (fun _ => (Except.ok "X" : Except String String))) ()
      { original_text := some "t" }).1
      { category := some "X", current_agent := some "Classifier" } () rfl
  have h2 := h.2.2.2.2.2
    ({ original_text := some "t", current_agent := some "Starting" } : TeamState)
  exact ⟨h.1, h2.1⟩

/-- Sample text used by `test_agents_team`. -/
def sample_text : String :=
  "\n    OpenAI launched ChatGPT-4, a new version of its language model\n"
  ++ "    that promises to revolutionize how we interact with artificial intelligence.\n"
  ++ "    The model presents significant improvements in reasoning, creativity and\n"
  ++ "    multimodal capabilities, being able to process both text and images.\n"
  ++ "    The company expects this technology to positively impact various sectors,\n"
  ++ "    from education to software development.\n    "

/-- Function `save_graph_visualization`: renders the workflow graph to PNG
bytes (`team.get_graph().draw_mermaid_png()`) and writes them to the output
file, returning the filepath; the bare `except` catches any exception
raised by either step, reports it, and returns `None`.  Rendering and
writing are passed in as fallible effects. -/
def save_graph_visualization {δ π : Type} (draw_mermaid_png : Except δ π)
    (write_file : π → Except δ Unit) (filepath : String) : Option String :=
  match draw_mermaid_png with
  | .error _ => none
  | .ok graph_png =>
    match write_file graph_png with
    | .error _ => none
    | .ok _ => some filepath

/-- Function `test_agents_team`: attempts the visualization export
(best effort), then invokes the team on the sample text; both outcomes are
returned. -/
def test_agents_team {δ π σ ε : Type} (draw_mermaid_png : Except δ π)
    (write_file : π → Except δ Unit) (c : ModelClient σ ε) (cs : σ) :
    Option String ×
      ((Except (RunError ε) (TeamState × σ)) × List Node ×
        List (Node × StateUpdate × TeamState)) :=
  let filepath := save_graph_visualization draw_mermaid_png write_file
    "agents_workflow.png"
  let result := teamInvoke c cs
    { original_text := some sample_text, current_agent := some "Starting" }
  (filepath, result)

/-- C9: a failure of the visualization export never aborts the pipeline
run — whenever rendering or writing fails, `save_graph_visualization`
swallows the exception and returns `None`, and the subsequent
`team.invoke` of the run still takes place with a result independent of the
export's outcome. -/
theorem c9_viz_failure_never_aborts (δ π σ ε : Type)
    (draw_mermaid_png : Except δ π) (write_file : π → Except δ Unit)
    (c : ModelClient σ ε) (cs : σ) :
    (∀ e, draw_mermaid_png = Except.error e →
      save_graph_visualization draw_mermaid_png write_file
        "agents_workflow.png" = none)
    ∧ (∀ png e, draw_mermaid_png = Except.ok png →
        write_file png = Except.error e →
        save_graph_visualization draw_mermaid_png write_file
          "agents_workflow.png" = none)
    ∧ (test_agents_team draw_mermaid_png write_file c cs).2 =
        teamInvoke c cs
          { original_text := some sample_text,
            current_agent := some "Starting" } := by
  refine ⟨?_, ?_, rfl⟩
  · intro e he
    subst he
    rfl
  · intro png e hok herr
    subst hok
    simp [save_graph_visualization, herr]

/-- Witness for C9: a concrete failing renderer yields `None` while the
pipeline invocation is unchanged. -/
theorem c9_viz_failure_never_aborts_witness :
    save_graph_visualization (Except.error "no graphviz" : Except String Unit)
        (fun _ => Except.ok ()) "agents_workflow.png" = none
    ∧ (test_agents_team (Except.error "no graphviz" : Except String Unit)
          (fun _ => Except.ok ()) scriptedClient ((0 : Nat), cannedReplies)).2 =
        teamInvoke scriptedClient (0, cannedReplies)
          { original_text := some sample_text,
            current_agent := some "Starting" } := by
  have h := c9_viz_failure_never_aborts String Unit
    (Nat × (Nat → Except String String)) String
    (Except.error "no graphviz" : Except String Unit) (fun _ => Except.ok ())
    scriptedClient ((0 : Nat), cannedReplies)
  exact ⟨h.1 "no graphviz" rfl, h.2.2⟩

end AgentsWorkflow
